import Mathlib

/-!
# Verification of the AlphaTanks utility scripts

Shallow embedding of the two Python scripts of the repository:

* `read_pdf.py` — a PDF-to-text extractor with a primary strategy
  (`read_pdf_with_pdfplumber`) and a fallback strategy
  (`read_pdf_with_pypdf2`), driven by a `__main__` block that writes the
  extracted text to a fixed output file and prints a bounded preview.
* `serve.py` — a local development HTTP server (`MyHTTPRequestHandler`
  overriding `end_headers` to inject CORS headers, and `start_server`
  running a blocking accept loop until a keyboard interrupt).

The PDF parsing libraries are external: a PDF, as seen through a
library, is modelled as the list of per-page results of
`page.extract_text()`, where Python `None` becomes `none` and a string
`s` becomes `some s`.  Whether a library manages to open and parse the
file at all is modelled by `Except`: `.error e` is a raised exception
with message `e`, `.ok pages` is a successful parse yielding `pages`.
-/

set_option autoImplicit false

/-- The result of `page.extract_text()` for one page: `none` models
Python `None`, `some s` a (possibly empty) string. -/
abbrev Page := Option String

/-- Loop body of `read_pdf_with_pypdf2` (`read_pdf.py` lines 6-10):
`text += page.extract_text() + "\n"`.  When `extract_text()` returns
`None`, the expression `None + "\n"` raises a `TypeError`, modelled as
`Except.error`; there is no guard for this case in the source. -/
def pypdf2Loop : String → List Page → Except String String
  | text, [] => .ok text
  | _, none :: _ =>
      .error "TypeError: unsupported operand type(s) for +: NoneType and str"
  | text, some t :: ps => pypdf2Loop (text ++ (t ++ "\n")) ps

/-- Function `read_pdf_with_pypdf2` (`read_pdf.py` lines 4-11): starts from the
empty accumulator and folds `pypdf2Loop` over the pages. -/
def read_pdf_with_pypdf2 (pages : List Page) : Except String String :=
  pypdf2Loop "" pages

/-- Loop body of `read_pdf_with_pdfplumber` (`read_pdf.py` lines 16-20):
`page_text = page.extract_text(); if page_text: text += page_text + "\n"`.
Python truthiness of a string: `None` and `""` are falsy, so such pages
are skipped. -/
def plumberLoop : String → List Page → String
  | text, [] => text
  | text, none :: ps => plumberLoop text ps
  | text, some t :: ps =>
      if t = "" then plumberLoop text ps
      else plumberLoop (text ++ (t ++ "\n")) ps

/-- Function `read_pdf_with_pdfplumber` (`read_pdf.py` lines 13-21). -/
def read_pdf_with_pdfplumber (pages : List Page) : String :=
  plumberLoop "" pages

/-- Python string slicing `s[:n]`: the first `n` characters of `s`
(the whole string when it is shorter). -/
def pythonSlice (s : String) (n : Nat) : String := ⟨s.data.take n⟩

/-- The extraction strategies of `read_pdf.py`, in the order the
`__main__` block tries them. -/
inductive Strategy
  | pdfplumber
  | pypdf2
deriving DecidableEq, Repr

/-- Running the primary strategy on a library outcome: if `pdfplumber`
opened the file, the extraction itself (`read_pdf_with_pdfplumber`)
always returns a string. -/
def runPlumberStrategy (outcome : Except String (List Page)) :
    Except String String :=
  outcome.map read_pdf_with_pdfplumber

/-- Running the fallback strategy on a library outcome: even when
`PyPDF2` opened the file, `read_pdf_with_pypdf2` can still raise a
`TypeError` on a `None` page. -/
def runPyPDF2Strategy (outcome : Except String (List Page)) :
    Except String String :=
  outcome.bind read_pdf_with_pypdf2

/-- Observable outcome of one run of the `__main__` block of
`read_pdf.py`: everything printed (in order), the strategies attempted
(in order), the final contents of `asi_arch_paper.txt` (`none` if the
file never existed), and the preview printed, if any. -/
structure MainResult where
  prints : List String
  attempts : List Strategy
  fileContents : Option String
  preview : Option String
deriving DecidableEq, Repr

/-- The `__main__` block of `read_pdf.py` (lines 23-49).  Inputs: the
outcome of opening/parsing the fixed PDF with each library, and the
prior contents of the output file `asi_arch_paper.txt` (which the run
leaves untouched unless a strategy succeeds, in which case the file is
opened with mode `"w"` — full overwrite). -/
def mainRun (plumberOutcome pypdfOutcome : Except String (List Page))
    (prior : Option String) : MainResult :=
  match runPlumberStrategy plumberOutcome with
  | .ok content =>
      { prints := ["Reading PDF with pdfplumber...",
                   "Successfully extracted " ++ toString content.length
                     ++ " characters",
                   "Content saved to asi_arch_paper.txt",
                   "\n--- PREVIEW (first 2000 chars) ---",
                   pythonSlice content 2000],
        attempts := [.pdfplumber],
        fileContents := some content,
        preview := some (pythonSlice content 2000) }
  | .error e1 =>
      match runPyPDF2Strategy pypdfOutcome with
      | .ok content =>
          { prints := ["Reading PDF with pdfplumber...",
                       "Error with pdfplumber: " ++ e1,
                       "Trying PyPDF2...",
                       "Successfully extracted " ++ toString content.length
                         ++ " characters with PyPDF2"],
            attempts := [.pdfplumber, .pypdf2],
            fileContents := some content,
            preview := none }
      | .error e2 =>
          { prints := ["Reading PDF with pdfplumber...",
                       "Error with pdfplumber: " ++ e1,
                       "Trying PyPDF2...",
                       "Error with PyPDF2: " ++ e2],
            attempts := [.pdfplumber, .pypdf2],
            fileContents := prior,
            preview := none }

/-- The per-page texts that survive the truthiness guard of
`read_pdf_with_pdfplumber`: non-`None` and non-empty, in page order. -/
def truthyTexts (pages : List Page) : List String :=
  pages.filterMap fun p => p.bind fun t => if t = "" then none else some t

/-- Concatenation of newline-terminated segments, one per listed text:
the mathematical description the extractor is compared against. -/
def segmentsConcat : List String → String
  | [] => ""
  | t :: ts => (t ++ "\n") ++ segmentsConcat ts

/-- Number of newline characters in a string; for text whose segments
contain no internal newline, this counts the newline-terminated
segments. -/
def newlineCount (s : String) : Nat := s.data.count '\n'

/-! ## `serve.py` -/

/-- Constant `PORT = 8000` (`serve.py`). -/
def PORT : Nat := 8000

/-- Class default `allow_reuse_address` of the Python standard library
class `socketserver.TCPServer`, which `serve.py` instantiates directly:
the default is `False` (only `http.server.HTTPServer`, which `serve.py`
does not use, overrides it to true), so `SO_REUSEADDR` is not set on
the listening socket. -/
def TCPServer_allow_reuse_address : Bool := false

/-- The listener configuration `start_server` builds (`serve.py` lines
30-38): `socketserver.TCPServer(("", PORT), MyHTTPRequestHandler)`,
serving files from the process working directory, which the module set
to the script's own directory via `os.chdir`. -/
structure ServerConfig where
  host : String
  port : Nat
  reuseAddress : Bool
  root : String
deriving DecidableEq, Repr

/-- The configuration of the server `start_server` binds, as a function
of the script's directory (the value of
`os.path.dirname(os.path.abspath(__file__))`). -/
def start_server_config (scriptDir : String) : ServerConfig :=
  { host := "", port := PORT,
    reuseAddress := TCPServer_allow_reuse_address,
    root := scriptDir }

/-- The three CORS headers `MyHTTPRequestHandler.end_headers` sends
(`serve.py` lines 19-24), in source order. -/
def corsHeaders : List (String × String) :=
  [("Access-Control-Allow-Origin", "*"),
   ("Access-Control-Allow-Methods", "GET, POST, OPTIONS"),
   ("Access-Control-Allow-Headers", "*")]

/-- Method `MyHTTPRequestHandler.end_headers`: appends the three CORS headers
to whatever headers the handler queued, then calls the base class
`end_headers`, which emits the terminating blank line; the returned
list is the whole header section that precedes the terminator. -/
def end_headers (queued : List (String × String)) : List (String × String) :=
  queued ++ corsHeaders

/-- An HTTP response of the DevServer: status code, the full header
section (in emission order, everything before the terminating blank
line), and the body. -/
structure HttpResponse where
  status : Nat
  headers : List (String × String)
  body : String

/-- Modelled from the spec: the standard-library file-serving handler
(`http.server.SimpleHTTPRequestHandler`, not part of `src/`), with
"standard directory-listing/file-serving semantics": a GET or HEAD for
an existing file answers 200 with the file's contents, a missing path
answers the standard not-found status 404, any other method the
standard not-implemented status 501; every response finishes its header
section through the handler's `end_headers` override. -/
def handleRequest (root : String → Option String) (method path : String) :
    HttpResponse :=
  if method = "GET" ∨ method = "HEAD" then
    match root path with
    | some body =>
        { status := 200,
          headers := end_headers
            [("Content-type", "text/html"),
             ("Content-Length", toString body.length)],
          body := if method = "HEAD" then "" else body }
    | none =>
        { status := 404,
          headers := end_headers [("Content-type", "text/html")],
          body := "404 Not Found" }
  else
    { status := 501,
      headers := end_headers [("Content-type", "text/html")],
      body := "501 Unsupported method" }

/-- An event reaching the DevServer's accept loop: an incoming request
(identified by a label) or the keyboard interrupt. -/
inductive ServerEvent
  | request (r : String)
  | interrupt
deriving DecidableEq, Repr

/-- Holds `true` exactly on the interrupt event. -/
def isInterrupt : ServerEvent → Bool
  | .interrupt => true
  | .request _ => false

/-- The request carried by an event, if any. -/
def requestOf : ServerEvent → Option String
  | .request r => some r
  | .interrupt => none

/-- Modelled from the spec: `httpd.serve_forever()` of the standard
library (not part of `src/`) as a synchronous accept loop over a stream
of events; following the spec, the interrupt signal "stops the accept
loop at the next iteration boundary", so each request before the first
interrupt is handled whole and nothing after it is looked at.  Returns
the requests handled in order, and whether a `KeyboardInterrupt` was
raised (`false` means the loop is still running when the event stream
ends). -/
def serve_forever : List ServerEvent → List String × Bool
  | [] => ([], false)
  | .request r :: es => ((serve_forever es).1.cons r, (serve_forever es).2)
  | .interrupt :: _ => ([], true)

/-- Observable outcome of `start_server` (`serve.py` lines 30-43) on an
event stream: the requests fully handled, whether the orderly shutdown
(`httpd.shutdown()` plus the `with`-block close) ran, and whether the
function returned. -/
structure ServeRun where
  handled : List String
  shutdownDone : Bool
  returned : Bool
deriving DecidableEq, Repr

/-- Function `start_server`: runs `serve_forever`; when it raises
`KeyboardInterrupt`, prints, calls `httpd.shutdown()` and leaves the
`with` block, returning.  Without an interrupt the call never returns. -/
def start_server (events : List ServerEvent) : ServeRun :=
  if (serve_forever events).2 then
    { handled := (serve_forever events).1, shutdownDone := true,
      returned := true }
  else
    { handled := (serve_forever events).1, shutdownDone := false,
      returned := false }

/-- A concrete root directory for exercising `handleRequest`: one file
`index.html` and nothing else. -/
def exampleRoot : String → Option String :=
  fun p => if p = "/index.html" then some "<html></html>" else none

/-! ## Helper lemmas -/

/-- The accumulator of `plumberLoop` only ever grows on the left: the
loop computes the newline-terminated concatenation of the truthy page
texts, appended to the accumulator. -/
theorem plumberLoop_append (pages : List Page) :
    ∀ text, plumberLoop text pages
      = text ++ segmentsConcat (truthyTexts pages) := by
  induction pages with
  | nil => intro text; simp [plumberLoop, truthyTexts, segmentsConcat]
  | cons p ps ih =>
      intro text
      cases p with
      | none => simpa [plumberLoop, truthyTexts] using ih text
      | some t =>
          by_cases h : t = ""
          · subst h
            simpa [plumberLoop, truthyTexts] using ih text
          · simp [plumberLoop, truthyTexts, h, segmentsConcat, ih,
                  String.append_assoc]

/-- Theorem: `read_pdf_with_pdfplumber` computes the newline-terminated
concatenation of the truthy page texts. -/
theorem read_pdf_with_pdfplumber_eq (pages : List Page) :
    read_pdf_with_pdfplumber pages = segmentsConcat (truthyTexts pages) :=
  plumberLoop_append pages ""

/-- A concatenation of newline-terminated segments is empty or ends in
a newline. -/
theorem segmentsConcat_empty_or_newline (ts : List String) :
    segmentsConcat ts = "" ∨ ∃ s, segmentsConcat ts = s ++ "\n" := by
  induction ts with
  | nil => exact Or.inl rfl
  | cons t ts ih =>
      rcases ih with h | ⟨s, h⟩
      · exact Or.inr ⟨t, by simp [segmentsConcat, h]⟩
      · exact Or.inr ⟨(t ++ "\n") ++ s,
          by simp [segmentsConcat, h, String.append_assoc]⟩

/-- When no listed text contains an internal newline, the concatenation
has exactly one newline per text. -/
theorem newlineCount_segmentsConcat (ts : List String)
    (h : ∀ t ∈ ts, '\n' ∉ t.data) :
    newlineCount (segmentsConcat ts) = ts.length := by
  induction ts with
  | nil => rfl
  | cons t ts ih =>
      have ht : '\n' ∉ t.data := h t (List.mem_cons_self t ts)
      have hts : List.count '\n' (segmentsConcat ts).data = ts.length :=
        ih fun u hu => h u (List.mem_cons_of_mem t hu)
      have hc : List.count '\n' t.data = 0 :=
        List.count_eq_zero_of_not_mem ht
      have hnl : List.count '\n' ("\n").data = 1 := by decide
      show List.count '\n' ((t ++ "\n") ++ segmentsConcat ts).data
          = ts.length + 1
      rw [String.data_append, String.data_append, List.count_append,
          List.count_append, hc, hnl, hts]
      omega


/-! ## Claim theorems -/

/-- C1: whenever the primary (pdfplumber) strategy raises, the
`__main__` block attempts the fallback (PyPDF2) strategy before
reporting total failure; and when both strategies raise, the run
terminates having printed the primary error and then the fallback
error, with the output file left in its prior state. -/
theorem mainRun_attempts_fallback_and_both_fail
    (po ko : Except String (List Page)) (prior : Option String)
    (e1 : String) (h1 : runPlumberStrategy po = .error e1) :
    (mainRun po ko prior).attempts
        = [Strategy.pdfplumber, Strategy.pypdf2] ∧
    ∀ e2, runPyPDF2Strategy ko = .error e2 →
      (mainRun po ko prior).prints
          = ["Reading PDF with pdfplumber...",
             "Error with pdfplumber: " ++ e1,
             "Trying PyPDF2...",
             "Error with PyPDF2: " ++ e2] ∧
      (mainRun po ko prior).fileContents = prior := by
  cases hk : runPyPDF2Strategy ko with
  | ok c => simp [mainRun, h1, hk]
  | error e => simp [mainRun, h1, hk]

/-- Witness for C1 at a concrete pair of failures: pdfplumber cannot
open the file, PyPDF2 opens it but hits a `None` page. -/
theorem mainRun_attempts_fallback_and_both_fail_witness :
    (mainRun (.error "open failed") (.ok [none]) (some "old")).attempts
        = [Strategy.pdfplumber, Strategy.pypdf2] ∧
    (mainRun (.error "open failed") (.ok [none]) (some "old")).prints
        = ["Reading PDF with pdfplumber...",
           "Error with pdfplumber: open failed",
           "Trying PyPDF2...",
           "Error with PyPDF2: TypeError: unsupported operand type(s) for +: NoneType and str"] ∧
    (mainRun (.error "open failed") (.ok [none]) (some "old")).fileContents
        = some "old" := by
  have h := mainRun_attempts_fallback_and_both_fail
    (.error "open failed") (.ok [none]) (some "old") "open failed" rfl
  have h2 := h.2
    "TypeError: unsupported operand type(s) for +: NoneType and str" rfl
  exact ⟨h.1, h2.1.trans (by decide), h2.2⟩

/-- C2: for a single-page PDF whose page has extractable (non-empty)
text `T`, the primary extraction returns a string containing `T`
followed by a newline (it is exactly `T ++ "\n"`), and on success the
output file's contents equal the returned string exactly. -/
theorem singlePage_extract_and_persist (T : String) (hT : T ≠ "")
    (ko : Except String (List Page)) (prior : Option String) :
    read_pdf_with_pdfplumber [some T] = T ++ "\n" ∧
    (∃ a b, read_pdf_with_pdfplumber [some T] = a ++ (T ++ "\n") ++ b) ∧
    (mainRun (.ok [some T]) ko prior).fileContents
        = some (read_pdf_with_pdfplumber [some T]) := by
  have h : read_pdf_with_pdfplumber [some T] = T ++ "\n" := by
    show plumberLoop "" [some T] = T ++ "\n"
    simp only [plumberLoop, if_neg hT]
    rfl
  refine ⟨h, ⟨"", "", by simp [h]⟩, ?_⟩
  simp [mainRun, runPlumberStrategy, Except.map]

/-- Witness for C2 at `T = "hello"`. -/
theorem singlePage_extract_and_persist_witness :
    read_pdf_with_pdfplumber [some "hello"] = "hello" ++ "\n" ∧
    (mainRun (.ok [some "hello"]) (.ok []) none).fileContents
        = some (read_pdf_with_pdfplumber [some "hello"]) := by
  have h := singlePage_extract_and_persist "hello" (by decide) (.ok []) none
  exact ⟨h.1, h.2.2⟩

/-- Counterexample to C3 as stated: a one-page PDF whose page yields no
text (`None`) produces the empty string, which contains zero
newline-terminated segments, not `N = 1`: the page is skipped, it does
not contribute an empty segment. -/
theorem plumber_segment_count_counterexample :
    ¬ (newlineCount (read_pdf_with_pdfplumber [(none : Page)])
        = [(none : Page)].length) := by decide

/-- C3 amended: for a PDF whose per-page texts contain no internal
newline, the text returned by `read_pdf_with_pdfplumber` contains
exactly `K` newline-terminated segments, where `K` is the number of
pages whose extracted text is truthy (non-`None` and non-empty); pages
with no extractable text are skipped and contribute no segment, so
`K ≤ N`. -/
theorem plumber_segment_count (pages : List Page)
    (h : ∀ t ∈ truthyTexts pages, '\n' ∉ t.data) :
    newlineCount (read_pdf_with_pdfplumber pages)
        = (truthyTexts pages).length ∧
    (truthyTexts pages).length ≤ pages.length := by
  refine ⟨?_, List.length_filterMap_le _ pages⟩
  rw [read_pdf_with_pdfplumber_eq]
  exact newlineCount_segmentsConcat _ h

/-- Witness for C3 amended on a four-page PDF with two truthy pages. -/
theorem plumber_segment_count_witness :
    newlineCount (read_pdf_with_pdfplumber [some "ab", none, some "", some "c"])
        = (truthyTexts [some "ab", none, some "", some "c"]).length ∧
    (truthyTexts [some "ab", none, some "", some "c"]).length
        ≤ ([some "ab", none, some "", some "c"] : List Page).length :=
  plumber_segment_count [some "ab", none, some "", some "c"] (by decide)

/-- Counterexample to C4 as stated: a run in which the primary strategy
fails and the fallback succeeds is a successful extraction run that
persists the text, yet no preview is produced — the preview print lives
only in the primary branch of the `__main__` block. -/
theorem mainRun_preview_counterexample :
    (mainRun (.error "boom") (.ok [some "x"]) none).fileContents
        = some "x\n" ∧
    (mainRun (.error "boom") (.ok [some "x"]) none).preview = none :=
  ⟨rfl, rfl⟩

/-- C4 amended: on a successful primary-strategy run the full text is
persisted and a preview is produced that never exceeds 2000 characters
and equals the output file's first 2000 characters (the whole file when
it is shorter); on a successful fallback run the full text is persisted
but no preview is produced. -/
theorem mainRun_preview_behavior (po ko : Except String (List Page))
    (prior : Option String) :
    (∀ pages, po = .ok pages →
        (mainRun po ko prior).fileContents
            = some (read_pdf_with_pdfplumber pages) ∧
        (mainRun po ko prior).preview
            = some (pythonSlice (read_pdf_with_pdfplumber pages) 2000) ∧
        (pythonSlice (read_pdf_with_pdfplumber pages) 2000).length ≤ 2000 ∧
        ((read_pdf_with_pdfplumber pages).length ≤ 2000 →
          pythonSlice (read_pdf_with_pdfplumber pages) 2000
              = read_pdf_with_pdfplumber pages)) ∧
    (∀ e content, po = .error e → runPyPDF2Strategy ko = .ok content →
        (mainRun po ko prior).fileContents = some content ∧
        (mainRun po ko prior).preview = none) := by
  constructor
  · rintro pages rfl
    refine ⟨by simp [mainRun, runPlumberStrategy, Except.map],
            by simp [mainRun, runPlumberStrategy, Except.map], ?_, ?_⟩
    · show (List.take 2000 (read_pdf_with_pdfplumber pages).data).length ≤ 2000
      rw [List.length_take]
      exact min_le_left _ _
    · intro hle
      have hle2 : (read_pdf_with_pdfplumber pages).data.length ≤ 2000 := hle
      show String.mk (List.take 2000 (read_pdf_with_pdfplumber pages).data)
          = read_pdf_with_pdfplumber pages
      rw [List.take_of_length_le hle2]
  · rintro e content rfl hk
    exact ⟨by simp [mainRun, runPlumberStrategy, Except.map, hk],
           by simp [mainRun, runPlumberStrategy, Except.map, hk]⟩

/-- Witness for C4 amended: the primary branch at a concrete one-page
PDF, and the fallback branch at a concrete failure/success pair. -/
theorem mainRun_preview_behavior_witness :
    ((mainRun (.ok [some "hi"]) (.ok []) none).fileContents
        = some (read_pdf_with_pdfplumber [some "hi"]) ∧
     (mainRun (.ok [some "hi"]) (.ok []) none).preview
        = some (pythonSlice (read_pdf_with_pdfplumber [some "hi"]) 2000)) ∧
    ((mainRun (.error "e") (.ok [some "y"]) none).fileContents
        = some "y\n" ∧
     (mainRun (.error "e") (.ok [some "y"]) none).preview = none) := by
  have h1 := (mainRun_preview_behavior (.ok [some "hi"]) (.ok []) none).1
    [some "hi"] rfl
  have h2 := (mainRun_preview_behavior (.error "e") (.ok [some "y"]) none).2
    "e" "y\n" rfl rfl
  exact ⟨⟨h1.1, h1.2.1⟩, h2⟩

/-- C5: on a PDF containing a page whose text extraction yields `None`,
`read_pdf_with_pypdf2` raises a `TypeError` when concatenating the page
result with the newline separator, while `read_pdf_with_pdfplumber`
skips such a page. -/
theorem pypdf2_typeError_on_none_page :
    read_pdf_with_pypdf2 [some "a", none, some "b"]
        = .error "TypeError: unsupported operand type(s) for +: NoneType and str" ∧
    read_pdf_with_pdfplumber [some "a", none, some "b"] = "a\nb\n" :=
  ⟨rfl, by decide⟩

/-- C6: whenever a strategy succeeds — the primary one, or the fallback
after the primary raised — the run overwrites the output file with
exactly the text `c` that the successful strategy extracted, and the
resulting contents are independent of the file's prior contents (full
overwrite, no append). -/
theorem mainRun_overwrites_output (po ko : Except String (List Page))
    (prior prior2 : Option String) (c : String)
    (h : runPlumberStrategy po = .ok c ∨
         ((∃ e, runPlumberStrategy po = .error e) ∧
           runPyPDF2Strategy ko = .ok c)) :
    (mainRun po ko prior).fileContents = some c ∧
    (mainRun po ko prior).fileContents
        = (mainRun po ko prior2).fileContents := by
  rcases h with hp | ⟨⟨e, hp⟩, hk⟩
  · exact ⟨by simp [mainRun, hp], by simp [mainRun, hp]⟩
  · exact ⟨by simp [mainRun, hp, hk], by simp [mainRun, hp, hk]⟩

/-- Witness for C6: a successful primary run over two different prior
file states writes exactly the extracted text. -/
theorem mainRun_overwrites_output_witness :
    (mainRun (.ok [some "x"]) (.ok []) (some "old")).fileContents
        = some "x\n" ∧
    (mainRun (.ok [some "x"]) (.ok []) (some "old")).fileContents
        = (mainRun (.ok [some "x"]) (.ok []) (some "other")).fileContents :=
  mainRun_overwrites_output (.ok [some "x"]) (.ok []) (some "old")
    (some "other") "x\n" (Or.inl rfl)

/-- C7: every response of the DevServer, for every request method,
path and root contents, carries the three CORS headers, appended at
the end of the header section (before the terminator); a GET for an
existing file has status 200, a GET for a missing file status 404. -/
theorem devserver_cors_on_every_response (root : String → Option String)
    (method path : String) :
    (∃ pre, (handleRequest root method path).headers = pre ++ corsHeaders) ∧
    (∀ hdr ∈ corsHeaders, hdr ∈ (handleRequest root method path).headers) ∧
    (method = "GET" → ∀ body, root path = some body →
        (handleRequest root method path).status = 200) ∧
    (method = "GET" → root path = none →
        (handleRequest root method path).status = 404) := by
  unfold handleRequest
  by_cases hm : method = "GET" ∨ method = "HEAD"
  · rw [if_pos hm]
    cases root path with
    | some body =>
        refine ⟨⟨_, rfl⟩, fun hdr hh => List.mem_append_right _ hh, ?_, ?_⟩
        · exact fun _ _ _ => rfl
        · intro _ hb; cases hb
    | none =>
        refine ⟨⟨_, rfl⟩, fun hdr hh => List.mem_append_right _ hh, ?_, ?_⟩
        · intro _ _ hb; cases hb
        · exact fun _ _ => rfl
  · rw [if_neg hm]
    refine ⟨⟨_, rfl⟩, fun hdr hh => List.mem_append_right _ hh, ?_, ?_⟩
    · exact fun hg => absurd (Or.inl hg) hm
    · exact fun hg => absurd (Or.inl hg) hm

/-- Witness for C7: a GET for the one existing file of `exampleRoot`
and a GET for a missing path. -/
theorem devserver_cors_witness :
    (∃ pre, (handleRequest exampleRoot "GET" "/index.html").headers
        = pre ++ corsHeaders) ∧
    (handleRequest exampleRoot "GET" "/index.html").status = 200 ∧
    (handleRequest exampleRoot "GET" "/missing").status = 404 :=
  ⟨(devserver_cors_on_every_response exampleRoot "GET" "/index.html").1,
   (devserver_cors_on_every_response exampleRoot "GET" "/index.html").2.2.1
     rfl "<html></html>" (by decide),
   (devserver_cors_on_every_response exampleRoot "GET" "/missing").2.2.2
     rfl (by decide)⟩

/-- Counterexample to C8 as stated: the listener built by
`start_server` does not have address-reuse enabled, because `serve.py`
instantiates `socketserver.TCPServer` directly, whose class default
`allow_reuse_address` is `False`. -/
theorem start_server_reuse_counterexample :
    ¬ ((start_server_config "AlphaTanks").reuseAddress = true) := by decide

/-- C8 amended: `start_server` binds a TCP listening socket on the
fixed port 8000 on all interfaces, serving static files rooted at the
script's directory, with address reuse left at the
`socketserver.TCPServer` default, i.e. disabled. -/
theorem start_server_binds_fixed_port (scriptDir : String) :
    (start_server_config scriptDir).port = 8000 ∧
    (start_server_config scriptDir).host = "" ∧
    (start_server_config scriptDir).root = scriptDir ∧
    (start_server_config scriptDir).reuseAddress
        = TCPServer_allow_reuse_address ∧
    TCPServer_allow_reuse_address = false :=
  ⟨rfl, rfl, rfl, rfl, rfl⟩

/-- C9: once the interrupt is observed, the accept loop exits, the
orderly shutdown runs, and `start_server` returns; the requests handled
are exactly the whole requests that arrived before the first interrupt
— none is aborted mid-response and none is accepted afterwards. -/
theorem interrupt_stops_server (events : List ServerEvent)
    (h : ServerEvent.interrupt ∈ events) :
    (start_server events).returned = true ∧
    (start_server events).shutdownDone = true ∧
    (start_server events).handled
        = (events.takeWhile fun e => ! isInterrupt e).filterMap requestOf := by
  have hs : serve_forever events
      = ((events.takeWhile fun e => ! isInterrupt e).filterMap requestOf,
         true) := by
    induction events with
    | nil => cases h
    | cons e es ih =>
        cases e with
        | interrupt =>
            simp [serve_forever, List.takeWhile_cons, isInterrupt]
        | request r =>
            have h2 : ServerEvent.interrupt ∈ es := by
              rcases List.mem_cons.mp h with h1 | h1
              · cases h1
              · exact h1
            simp [serve_forever, ih h2, List.takeWhile_cons, isInterrupt,
                  requestOf, List.filterMap_cons]
  simp [start_server, hs]

/-- Witness for C9: one request, then the interrupt, then a late
request the server never sees. -/
theorem interrupt_stops_server_witness :
    (start_server [ServerEvent.request "GET /index.html",
                   ServerEvent.interrupt,
                   ServerEvent.request "GET /late"]).returned = true ∧
    (start_server [ServerEvent.request "GET /index.html",
                   ServerEvent.interrupt,
                   ServerEvent.request "GET /late"]).shutdownDone = true ∧
    (start_server [ServerEvent.request "GET /index.html",
                   ServerEvent.interrupt,
                   ServerEvent.request "GET /late"]).handled
        = ["GET /index.html"] := by
  have h := interrupt_stops_server
    [ServerEvent.request "GET /index.html", ServerEvent.interrupt,
     ServerEvent.request "GET /late"] (by decide)
  exact ⟨h.1, h.2.1, h.2.2.trans (by decide)⟩

/-- C10: `read_pdf_with_pdfplumber` returns the concatenation, in page
order, of `pageText ++ "\n"` over exactly those pages whose extracted
text is non-empty (truthy); consequently the result is empty or ends
with a newline. -/
theorem plumber_result_structure (pages : List Page) :
    read_pdf_with_pdfplumber pages = segmentsConcat (truthyTexts pages) ∧
    (read_pdf_with_pdfplumber pages = "" ∨
      ∃ s, read_pdf_with_pdfplumber pages = s ++ "\n") := by
  refine ⟨read_pdf_with_pdfplumber_eq pages, ?_⟩
  rw [read_pdf_with_pdfplumber_eq]
  exact segmentsConcat_empty_or_newline _
